import Mathlib

/-!
Shallow embedding of `src/system/hwquirks.c` from memtest86plus: the
hardware-quirk detection engine `quirks_init` and its corrective-action
procedures.  Hardware accesses (I/O ports, LPC bus, PCI configuration
space) are modelled as an explicit event trace; the values returned by
hardware reads are passed in as explicit arguments.  Machine integers
are modelled as `Nat` with explicit truncation where the C code narrows
a value.
-/

namespace HWQuirks

/-- A single hardware access or fix invocation performed by the code.
Read events record the value the hardware returned; write events record
the value written.  Arguments appear in the order of the C call. -/
inductive Event where
  | outb (val port : Nat)
  | usleep (us : Nat)
  | lpc_outb (a b : Nat)
  | lpc_inb (reg : Nat) (val : Nat)
  | pci_read8 (bus dev fn off val : Nat)
  | pci_read16 (bus dev fn off val : Nat)
  | pci_read32 (bus dev fn off val : Nat)
  | pci_write8 (bus dev fn off val : Nat)
  | pci_write16 (bus dev fn off val : Nat)
  | pci_write32 (bus dev fn off val : Nat)
  | invoke (pname : String)
  deriving DecidableEq, Repr

/-- The quirk identifiers assigned by `quirks_init` (enum `quirk_id_t`
declared in `hwquirks.h`; the set of constructors is exactly the set of
identifiers used in `hwquirks.c`). -/
inductive QuirkId where
  | QUIRK_NONE
  | QUIRK_ALI_ALADDIN_V
  | QUIRK_TUSL2
  | QUIRK_X10SDV_NOSMP
  | QUIRK_K8_BSTEP_NOTEMP
  | QUIRK_K8_REVFG_TEMP
  | QUIRK_AMD_ERRATA_319
  | QUIRK_ADL_SMB_UNLOCK
  deriving DecidableEq, Repr

/-- The corrective-action procedures of `hwquirks.c`, as a closed set of
tags (the C code stores a bare function pointer in `quirk.process`). -/
inductive QuirkProcess where
  | get_m1541_l2_cache_size
  | asus_tusl2_configure_mux
  | disable_temp_reporting
  | amd_k8_revfg_temp
  | adl_unlock_smbus
  deriving DecidableEq, Repr

/-- Modelled from the spec: the domain bitmask constants of `hwquirks.h`
(not under `src/`).  The spec describes `affected-domains` as a bitmask
over the four domains {memory-size, SMBus, SMP, temperature}, accumulated
by bitwise union, with `QUIRK_TYPE_NONE` the empty mask; we give the four
domains distinct single bits. -/
def QUIRK_TYPE_NONE : Nat := 0

/-- Modelled from the spec: memory-size domain bit (see `QUIRK_TYPE_NONE`). -/
def QUIRK_TYPE_MEM_SIZE : Nat := 1

/-- Modelled from the spec: SMBus domain bit (see `QUIRK_TYPE_NONE`). -/
def QUIRK_TYPE_SMBUS : Nat := 2

/-- Modelled from the spec: SMP domain bit (see `QUIRK_TYPE_NONE`). -/
def QUIRK_TYPE_SMP : Nat := 4

/-- Modelled from the spec: temperature domain bit (see `QUIRK_TYPE_NONE`). -/
def QUIRK_TYPE_TEMP : Nat := 8

/-- Modelled from the spec: PCI vendor-ID register offset, from `pci.h`
(not under `src/`); the standard PCI configuration-space offset. -/
def PCI_VID_REG : Nat := 0x00

/-- Modelled from the spec: PCI device-ID register offset (`pci.h`). -/
def PCI_DID_REG : Nat := 0x02

/-- Modelled from the spec: PCI subsystem vendor-ID register offset (`pci.h`). -/
def PCI_SUB_VID_REG : Nat := 0x2C

/-- Modelled from the spec: PCI subsystem device-ID register offset (`pci.h`). -/
def PCI_SUB_DID_REG : Nat := 0x2E

/-- Modelled from the spec: ALi PCI vendor ID (`pci.h`, not under `src/`). -/
def PCI_VID_ALI : Nat := 0x10B9

/-- Modelled from the spec: Intel PCI vendor ID (`pci.h`). -/
def PCI_VID_INTEL : Nat := 0x8086

/-- Modelled from the spec: ASUS PCI vendor ID (`pci.h`). -/
def PCI_VID_ASUS : Nat := 0x1043

/-- Modelled from the spec: SuperMicro PCI vendor ID (`pci.h`). -/
def PCI_VID_SUPERMICRO : Nat := 0x15D9

/-- Modelled from the spec: the Alder-Lake-N value of the platform /
memory-controller classification enumerant `imc_type` (header not under
`src/`); only its distinctness matters to the rules. -/
def IMC_ADL_N : Nat := 1

/-- Modelled from the spec: the fixed AMD K8 temperature-control register
offset `AMD_TEMP_REG_K8` from `temperature.h` (not under `src/`). -/
def AMD_TEMP_REG_K8 : Nat := 0xE4

/-- The platform fingerprint consumed by `quirks_init`: the values the
hardware and CPUID reads return.  `root_vid`/`root_did` are the PCI
(0,0,0) vendor/device IDs; `sub_vid`/`sub_did` the subsystem IDs at
(0,0,0); `vendor_first` is `cpuid_info.vendor_id.str[0]`; the remaining
CPU fields mirror `cpuid_info.version`; `imc_type` the classification
global; `isa_sub_did` the 16-bit read at (0,31,4,0x2); `dct0_high` the
32-bit read at (0,24,2,0x94). -/
structure Fingerprint where
  root_vid : Nat
  root_did : Nat
  sub_vid : Nat
  sub_did : Nat
  vendor_first : Char
  family : Nat
  extendedFamily : Nat
  model : Nat
  extendedModel : Nat
  stepping : Nat
  extendedBrandID : Nat
  imc_type : Nat
  isa_sub_did : Nat
  dct0_high : Nat
  deriving DecidableEq, Repr

/-- The quirk record `quirk_t quirk` populated by `quirks_init`. -/
structure Quirk where
  id : QuirkId
  type : Nat
  root_vid : Nat
  root_did : Nat
  process : Option QuirkProcess
  deriving DecidableEq, Repr

/-! ## Corrective actions (private functions of `hwquirks.c`) -/

/-- `asus_tusl2_configure_mux` (hwquirks.c lines 26-49), as the event
trace it performs; `muxreg` is the byte returned by `lpc_inb(0xF1)`. -/
def asus_tusl2_configure_mux (muxreg : Nat) : List Event :=
  [Event.outb 0x87 0x2E,
   Event.outb 0x87 0x2E,
   Event.usleep 200,
   Event.lpc_outb 0x7 0x8,
   Event.lpc_inb 0xF1 muxreg,
   Event.lpc_outb 0xF1 ((muxreg &&& 0xE7) ||| 0x10),
   Event.usleep 200,
   Event.outb 0xAA 0x2E]

/-- `get_m1541_l2_cache_size` (hwquirks.c lines 51-68): takes the cached
`l2_cache` global and the bytes returned by the two PCI config reads at
(0,0,0,0x42) and (0,0,0,0x41); returns the new `l2_cache` value and the
trace of register accesses actually performed. -/
def get_m1541_l2_cache_size (l2_cache reg42 reg41 : Nat) : Nat × List Event :=
  if l2_cache != 0 then
    (l2_cache, [])
  else if (reg42 &&& 1) == 0 then
    (l2_cache, [Event.pci_read8 0 0 0 0x42 reg42])
  else
    let reg := (reg41 >>> 2) &&& 3
    let l2a := if reg == 0b00 then 256 else l2_cache
    let l2b := if reg == 0b01 then 512 else l2a
    let l2c := if reg == 0b10 then 1024 else l2b
    (l2c, [Event.pci_read8 0 0 0 0x42 reg42, Event.pci_read8 0 0 0 0x41 reg41])

/-- `disable_temp_reporting` (hwquirks.c lines 70-73): sets the
`enable_temperature` global to false. -/
def disable_temp_reporting (_enable_temperature : Bool) : Bool :=
  false

/-- `amd_k8_revfg_temp` (hwquirks.c lines 75-100), translated verbatim,
early returns and all.  Arguments: the relevant `cpuid_info.version`
fields, the 32-bit value `rtcr` returned by the PCI read of
`AMD_TEMP_REG_K8`, and the prior `cpu_temp_offset` global (modelled as a
rational; the C code assigns the exact float `21.0f`).  Returns the new
offset and the trace of register accesses. -/
def amd_k8_revfg_temp (extendedModel model extendedBrandID rtcr : Nat)
    (cpu_temp_offset : ℚ) : ℚ × List Event :=
  let t0 := [Event.pci_read32 0 24 3 AMD_TEMP_REG_K8 rtcr]
  let t1 := if ((rtcr >>> 16) &&& 0xFF) == 0 then
      t0 ++ [Event.pci_write8 0 24 3 AMD_TEMP_REG_K8 ((rtcr ||| 0x04) % 256)]
    else t0
  if extendedModel < 6 && extendedModel > 7 then       -- "Not Rev G"
    (cpu_temp_offset, t1)
  else if extendedModel == 6 && extendedModel < 9 then -- "Not Desktop"
    (cpu_temp_offset, t1)
  else
    let brandID := (extendedBrandID >>> 9) &&& 0x1F
    if model == 0xF && (brandID == 0x7 || brandID == 0x9 || brandID == 0xC) then
      (cpu_temp_offset, t1)                            -- Mobile (Single Core)
    else if model == 0xB && brandID > 0xB then
      (cpu_temp_offset, t1)                            -- Mobile (Dual Core)
    else
      (21, t1)

/-- `adl_unlock_smbus` (hwquirks.c lines 102-109): `x` is the 16-bit
value returned by the PCI read at (0,31,4,0x04); returns the trace of
register accesses performed. -/
def adl_unlock_smbus (x : Nat) : List Event :=
  Event.pci_read16 0 31 4 0x04 x ::
    (if (x &&& 1) == 0 then [Event.pci_write16 0 31 4 0x04 (x ||| 1)] else [])

/-! ## Rule predicates

Named Boolean conditions of the seven `if` blocks of `quirks_init`
(hwquirks.c lines 115-220), each over the fingerprint. -/

/-- R1 trigger: ALi Aladdin V (M1541) root bridge. -/
def r1_matches (fp : Fingerprint) : Bool :=
  fp.root_vid == PCI_VID_ALI && fp.root_did == 0x1541

/-- R2 trigger: Intel i815 root bridge with ASUS TUSL2-C subsystem
(the three nested `if`s of the source, flattened). -/
def r2_matches (fp : Fingerprint) : Bool :=
  fp.root_vid == PCI_VID_INTEL && fp.root_did == 0x1130 &&
  fp.sub_vid == PCI_VID_ASUS && fp.sub_did == 0x8027

/-- R3 trigger: Broadwell-E (Xeon-D) root bridge with SuperMicro
subsystem vendor (the source checks only the subsystem vendor ID). -/
def r3_matches (fp : Fingerprint) : Bool :=
  fp.root_vid == PCI_VID_INTEL && fp.root_did == 0x6F00 &&
  fp.sub_vid == PCI_VID_SUPERMICRO

/-- R4 trigger: early AMD K8 (SH-B0/B3 stepping). -/
def r4_matches (fp : Fingerprint) : Bool :=
  fp.vendor_first == 'A' && fp.family == 0xF &&
  fp.extendedFamily == 0 && fp.extendedModel == 0 &&
  ((fp.model == 4 && fp.stepping == 0) || (fp.model == 5 && fp.stepping <= 1))

/-- R5 trigger: late AMD K8 (rev F/G). -/
def r5_matches (fp : Fingerprint) : Bool :=
  fp.vendor_first == 'A' && fp.family == 0xF &&
  fp.extendedFamily == 0 && fp.extendedModel >= 4

/-- R6 outer trigger: AMD K10; gates the (0,24,2,0x94) register read. -/
def r6_outer (fp : Fingerprint) : Bool :=
  fp.vendor_first == 'A' && fp.family == 0xF &&
  fp.extendedFamily == 1 && fp.extendedModel == 0

/-- R6 trigger: AMD K10 errata #319 (outer CPU match, Socket F / AM2+
package check via `pkg_type` and DCT0 register, affected steppings). -/
def r6_matches (fp : Fingerprint) : Bool :=
  let pkg_type := (fp.extendedBrandID >>> 28) &&& 0x0F
  r6_outer fp &&
  (pkg_type == 0b0000 || (pkg_type == 0b0001 && ((fp.dct0_high >>> 8) &&& 1) == 0)) &&
  (fp.model < 4 || (fp.model == 4 && fp.stepping <= 2) || fp.model == 8)

/-- R7 trigger: ADL-N platform with ISA-bridge subsystem device 0x54A3
(the `&&` short-circuit gates the PCI read on the `imc_type` test). -/
def r7_matches (fp : Fingerprint) : Bool :=
  fp.imc_type == IMC_ADL_N && fp.isa_sub_did == 0x54A3

/-! ## The rule evaluation engine -/

/-- `quirks_init` (hwquirks.c lines 115-220), translated statement by
statement: initializes the record, then evaluates the seven rule blocks
in source order, each matching block OR-ing its domain bit into
`quirk.type` and overwriting `quirk.id` and `quirk.process`.  The second
component is the trace of hardware accesses and fix invocations the
function performs (the source stores every fix in `quirk.process` and
invokes none of them itself, so no `Event.invoke` is ever emitted). -/
def quirks_init (fp : Fingerprint) : Quirk × List Event :=
  let q0 : Quirk :=
    { id := QuirkId.QUIRK_NONE, type := QUIRK_TYPE_NONE,
      root_vid := fp.root_vid, root_did := fp.root_did, process := none }
  let t0 : List Event :=
    [Event.pci_read16 0 0 0 PCI_VID_REG fp.root_vid,
     Event.pci_read16 0 0 0 PCI_DID_REG fp.root_did]
  -- ALi Aladdin V quirk
  let q1 := if r1_matches fp then
      { q0 with id := QuirkId.QUIRK_ALI_ALADDIN_V,
                type := q0.type ||| QUIRK_TYPE_MEM_SIZE,
                process := some QuirkProcess.get_m1541_l2_cache_size }
    else q0
  -- ASUS TUSL2-C quirk (nested ifs gate the subsystem reads)
  let t2 := t0 ++
    (if fp.root_vid == PCI_VID_INTEL && fp.root_did == 0x1130 then
       Event.pci_read16 0 0 0 PCI_SUB_VID_REG fp.sub_vid ::
         (if fp.sub_vid == PCI_VID_ASUS then
            [Event.pci_read16 0 0 0 PCI_SUB_DID_REG fp.sub_did]
          else [])
     else [])
  let q2 := if r2_matches fp then
      { q1 with id := QuirkId.QUIRK_TUSL2,
                type := q1.type ||| QUIRK_TYPE_SMBUS,
                process := some QuirkProcess.asus_tusl2_configure_mux }
    else q1
  -- SuperMicro X10SDV quirk
  let t3 := t2 ++
    (if fp.root_vid == PCI_VID_INTEL && fp.root_did == 0x6F00 then
       [Event.pci_read16 0 0 0 PCI_SUB_VID_REG fp.sub_vid]
     else [])
  let q3 := if r3_matches fp then
      { q2 with id := QuirkId.QUIRK_X10SDV_NOSMP,
                type := q2.type ||| QUIRK_TYPE_SMP,
                process := none }
    else q2
  -- Early AMD K8 quirk
  let q4 := if r4_matches fp then
      { q3 with id := QuirkId.QUIRK_K8_BSTEP_NOTEMP,
                type := q3.type ||| QUIRK_TYPE_TEMP,
                process := some QuirkProcess.disable_temp_reporting }
    else q3
  -- Late AMD K8 (rev F/G) quirk
  let q5 := if r5_matches fp then
      { q4 with id := QuirkId.QUIRK_K8_REVFG_TEMP,
                type := q4.type ||| QUIRK_TYPE_TEMP,
                process := some QuirkProcess.amd_k8_revfg_temp }
    else q4
  -- AMD K10 errata #319 quirk (outer match gates the DCT0 read)
  let t6 := t3 ++
    (if r6_outer fp then [Event.pci_read32 0 24 2 0x94 fp.dct0_high] else [])
  let q6 := if r6_matches fp then
      { q5 with id := QuirkId.QUIRK_AMD_ERRATA_319,
                type := q5.type ||| QUIRK_TYPE_TEMP,
                process := some QuirkProcess.disable_temp_reporting }
    else q5
  -- ADL-N SMBus unlock quirk (short-circuit gates the ISA-bridge read)
  let t7 := t6 ++
    (if fp.imc_type == IMC_ADL_N then
       [Event.pci_read16 0 31 4 0x2 fp.isa_sub_did]
     else [])
  let q7 := if r7_matches fp then
      { q6 with id := QuirkId.QUIRK_ADL_SMB_UNLOCK,
                type := q6.type ||| QUIRK_TYPE_SMBUS,
                process := some QuirkProcess.adl_unlock_smbus }
    else q6
  (q7, t7)

/-! ## The rule table as data

To state the accumulation policy of the engine, the seven rule blocks of
`quirks_init` are also listed as data: a trigger predicate, the quirk
identifier and domain bit it assigns, and the corrective action it
stores (`none` for the X10SDV rule, which explicitly stores NULL).  The
theorem `quirks_init_eq_foldl` proves that `quirks_init` is exactly the
left fold of these rules, in table order, over the empty record. -/

structure Rule where
  trig : Fingerprint → Bool
  id : QuirkId
  domains : Nat
  process : Option QuirkProcess

/-- The seven rules of `quirks_init`, in source order. -/
def ruleTable : List Rule :=
  [⟨r1_matches, QuirkId.QUIRK_ALI_ALADDIN_V, QUIRK_TYPE_MEM_SIZE,
    some QuirkProcess.get_m1541_l2_cache_size⟩,
   ⟨r2_matches, QuirkId.QUIRK_TUSL2, QUIRK_TYPE_SMBUS,
    some QuirkProcess.asus_tusl2_configure_mux⟩,
   ⟨r3_matches, QuirkId.QUIRK_X10SDV_NOSMP, QUIRK_TYPE_SMP, none⟩,
   ⟨r4_matches, QuirkId.QUIRK_K8_BSTEP_NOTEMP, QUIRK_TYPE_TEMP,
    some QuirkProcess.disable_temp_reporting⟩,
   ⟨r5_matches, QuirkId.QUIRK_K8_REVFG_TEMP, QUIRK_TYPE_TEMP,
    some QuirkProcess.amd_k8_revfg_temp⟩,
   ⟨r6_matches, QuirkId.QUIRK_AMD_ERRATA_319, QUIRK_TYPE_TEMP,
    some QuirkProcess.disable_temp_reporting⟩,
   ⟨r7_matches, QuirkId.QUIRK_ADL_SMB_UNLOCK, QUIRK_TYPE_SMBUS,
    some QuirkProcess.adl_unlock_smbus⟩]

/-- What one matching rule block does to the record. -/
def applyRule (fp : Fingerprint) (q : Quirk) (r : Rule) : Quirk :=
  if r.trig fp then
    { q with id := r.id, type := q.type ||| r.domains, process := r.process }
  else q

/-- The record before any rule block runs. -/
def initQuirk (fp : Fingerprint) : Quirk :=
  { id := QuirkId.QUIRK_NONE, type := QUIRK_TYPE_NONE,
    root_vid := fp.root_vid, root_did := fp.root_did, process := none }

/-- The rules whose trigger the fingerprint satisfies, in table order. -/
def matchingRules (fp : Fingerprint) : List Rule :=
  ruleTable.filter fun r => r.trig fp

/-- The fix invocations contained in an event trace. -/
def invokedFixes (es : List Event) : List Event :=
  es.filter fun e => match e with
    | Event.invoke _ => true
    | _ => false

theorem quirks_init_eq_foldl (fp : Fingerprint) :
    (quirks_init fp).1 = ruleTable.foldl (applyRule fp) (initQuirk fp) := by
  simp only [quirks_init, ruleTable, applyRule, initQuirk, List.foldl]

/-- Generic shape of the fold: `type` accumulates the union of matched
domains, while `id` and `process` take the last matched rule's values
(or keep the initial ones when nothing matches); `root_vid`/`root_did`
are untouched. -/
theorem foldl_applyRule_fields (fp : Fingerprint) (l : List Rule) (q : Quirk) :
    (l.foldl (applyRule fp) q).type
        = (l.filter fun r => r.trig fp).foldl (fun t r => t ||| r.domains) q.type
    ∧ (l.foldl (applyRule fp) q).id
        = ((l.filter fun r => r.trig fp).getLast?).elim q.id Rule.id
    ∧ (l.foldl (applyRule fp) q).process
        = ((l.filter fun r => r.trig fp).getLast?).elim q.process Rule.process
    ∧ (l.foldl (applyRule fp) q).root_vid = q.root_vid
    ∧ (l.foldl (applyRule fp) q).root_did = q.root_did := by
  induction l generalizing q with
  | nil => exact ⟨rfl, rfl, rfl, rfl, rfl⟩
  | cons r l ih =>
    rcases hm : r.trig fp with _ | _
    · simpa [List.filter_cons, hm, applyRule] using ih q
    · have ih' := ih { q with id := r.id, type := q.type ||| r.domains,
                              process := r.process }
      rcases hf : l.filter (fun r => r.trig fp) with _ | ⟨r2, l2⟩
      · simpa [List.filter_cons, hm, hf, applyRule] using ih'
      · simpa [List.filter_cons, hm, hf, applyRule, List.getLast?_cons_cons]
          using ih'

/-! ## Claim theorems about the corrective actions -/

/-- C6: the R2 corrective action `asus_tusl2_configure_mux` performs its
side effects in exactly this order: write 0x87 to port 0x2E twice, delay
200 µs, LPC index write (0x7 to 0x8), LPC read of register 0xF1, LPC
write back of the read value with bits [4:3] cleared and bit 4 set,
delay 200 µs, write 0xAA to port 0x2E.  The written byte is
characterized bit by bit against the byte read. -/
theorem asus_tusl2_mux_event_order (muxreg : Nat) (h : muxreg < 256) :
    asus_tusl2_configure_mux muxreg =
      [Event.outb 0x87 0x2E,
       Event.outb 0x87 0x2E,
       Event.usleep 200,
       Event.lpc_outb 0x7 0x8,
       Event.lpc_inb 0xF1 muxreg,
       Event.lpc_outb 0xF1 ((muxreg &&& 0xE7) ||| 0x10),
       Event.usleep 200,
       Event.outb 0xAA 0x2E]
    ∧ ((muxreg &&& 0xE7) ||| 0x10).testBit 3 = false
    ∧ ((muxreg &&& 0xE7) ||| 0x10).testBit 4 = true
    ∧ (∀ i, i < 8 → i ≠ 3 → i ≠ 4 →
        ((muxreg &&& 0xE7) ||| 0x10).testBit i = muxreg.testBit i) := by
  have c231 : ∀ i, i < 8 → i ≠ 3 → i ≠ 4 → Nat.testBit 231 i = true := by decide
  have c16 : ∀ i, i < 8 → i ≠ 4 → Nat.testBit 16 i = false := by decide
  refine ⟨rfl, ?_, ?_, ?_⟩
  · simp only [Nat.testBit_or, Nat.testBit_and,
      show Nat.testBit 231 3 = false from by decide,
      show Nat.testBit 16 3 = false from by decide]
    simp
  · simp only [Nat.testBit_or, Nat.testBit_and,
      show Nat.testBit 16 4 = true from by decide]
    simp
  · intro i hi h3 h4
    simp only [Nat.testBit_or, Nat.testBit_and, c231 i hi h3 h4, c16 i hi h4]
    simp

theorem asus_tusl2_mux_event_order_witness :
    (0xA5 : Nat) < 256 ∧
    (asus_tusl2_configure_mux 0xA5 =
      [Event.outb 0x87 0x2E,
       Event.outb 0x87 0x2E,
       Event.usleep 200,
       Event.lpc_outb 0x7 0x8,
       Event.lpc_inb 0xF1 0xA5,
       Event.lpc_outb 0xF1 ((0xA5 &&& 0xE7) ||| 0x10),
       Event.usleep 200,
       Event.outb 0xAA 0x2E]
    ∧ ((0xA5 &&& 0xE7) ||| 0x10).testBit 3 = false
    ∧ ((0xA5 &&& 0xE7) ||| 0x10).testBit 4 = true
    ∧ (∀ i, i < 8 → i ≠ 3 → i ≠ 4 →
        ((0xA5 &&& 0xE7) ||| 0x10).testBit i = (0xA5 : Nat).testBit i)) :=
  ⟨by decide, asus_tusl2_mux_event_order 0xA5 (by decide)⟩

/-- C7: when the R1 probe proceeds to read the size register (cached
size zero, enable bit of register 0x42 set), the 2-bit code in bits
[3:2] of register 0x41 maps 0 to 256, 1 to 512, 2 to 1024, and code 3
leaves the cached size at its prior value (zero, i.e. still unset);
both chipset registers are read, in order. -/
theorem get_m1541_l2_code_mapping (reg42 reg41 : Nat) (h : reg42 &&& 1 ≠ 0) :
    (get_m1541_l2_cache_size 0 reg42 reg41).1 =
      (if (reg41 >>> 2) &&& 3 = 0 then 256
       else if (reg41 >>> 2) &&& 3 = 1 then 512
       else if (reg41 >>> 2) &&& 3 = 2 then 1024
       else 0)
    ∧ (get_m1541_l2_cache_size 0 reg42 reg41).2 =
      [Event.pci_read8 0 0 0 0x42 reg42, Event.pci_read8 0 0 0 0x41 reg41] := by
  have hc : (reg41 >>> 2) &&& 3 ≤ 3 := Nat.and_le_right
  have h' : ((reg42 &&& 1) == 0) = false := by
    simpa using h
  have h2 : ¬ (reg42 % 2 = 0) := by
    simpa [Nat.and_one_is_mod] using h
  constructor
  · simp only [get_m1541_l2_cache_size, h']
    interval_cases hv : ((reg41 >>> 2) &&& 3) <;> simp
  · simp [get_m1541_l2_cache_size, h2]

theorem get_m1541_l2_code_mapping_witness :
    (3 : Nat) &&& 1 ≠ 0 ∧
    ((get_m1541_l2_cache_size 0 3 0xFF).1 =
      (if ((0xFF : Nat) >>> 2) &&& 3 = 0 then 256
       else if ((0xFF : Nat) >>> 2) &&& 3 = 1 then 512
       else if ((0xFF : Nat) >>> 2) &&& 3 = 2 then 1024
       else 0)
    ∧ (get_m1541_l2_cache_size 0 3 0xFF).2 =
      [Event.pci_read8 0 0 0 0x42 3, Event.pci_read8 0 0 0 0x41 0xFF]) :=
  ⟨by decide, get_m1541_l2_code_mapping 3 0xFF (by decide)⟩

/-- C8: the R1 probe is idempotent: with an already-nonzero cached size
it performs no register access and leaves the value unchanged, and for
any starting state running it twice yields the same cached value as
running it once. -/
theorem get_m1541_l2_idempotent (l2_cache reg42 reg41 : Nat) :
    (l2_cache ≠ 0 → get_m1541_l2_cache_size l2_cache reg42 reg41 = (l2_cache, []))
    ∧ (get_m1541_l2_cache_size
        (get_m1541_l2_cache_size l2_cache reg42 reg41).1 reg42 reg41).1
      = (get_m1541_l2_cache_size l2_cache reg42 reg41).1 := by
  have hnz : ∀ n, n ≠ 0 → get_m1541_l2_cache_size n reg42 reg41 = (n, []) := by
    intro n hn
    simp [get_m1541_l2_cache_size, hn]
  refine ⟨hnz l2_cache, ?_⟩
  by_cases hv : (get_m1541_l2_cache_size l2_cache reg42 reg41).1 = 0
  · by_cases hl : l2_cache = 0
    · rw [hl] at hv ⊢
      rw [hv]
      exact hv
    · rw [hnz l2_cache hl] at hv
      exact absurd hv hl
  · rw [hnz _ hv]

theorem get_m1541_l2_idempotent_witness :
    (get_m1541_l2_cache_size 512 3 0 = (512, []))
    ∧ (get_m1541_l2_cache_size
        (get_m1541_l2_cache_size 512 3 0).1 3 0).1
      = (get_m1541_l2_cache_size 512 3 0).1 :=
  ⟨(get_m1541_l2_idempotent 512 3 0).1 (by decide),
   (get_m1541_l2_idempotent 512 3 0).2⟩

/-- C9: the R7 action `adl_unlock_smbus` reads the 16-bit control
register exactly once, and writes back the read value with bit 0 set if
and only if bit 0 of the read value was clear; with bit 0 already set,
no write (indeed no further access of any kind) occurs. -/
theorem adl_unlock_smbus_idempotent (x : Nat) :
    adl_unlock_smbus x =
      Event.pci_read16 0 31 4 0x04 x ::
        (if x.testBit 0 then [] else [Event.pci_write16 0 31 4 0x04 (x ||| 1)])
    ∧ (adl_unlock_smbus x).countP
        (fun e => match e with
          | Event.pci_read16 _ _ _ _ _ => true
          | _ => false) = 1 := by
  have hx : adl_unlock_smbus x =
      Event.pci_read16 0 31 4 0x04 x ::
        (if x.testBit 0 then [] else [Event.pci_write16 0 31 4 0x04 (x ||| 1)]) := by
    by_cases hp : x % 2 = 1
    · simp [adl_unlock_smbus, Nat.and_one_is_mod, hp]
    · simp [adl_unlock_smbus, Nat.and_one_is_mod, hp, Nat.mod_two_ne_one.mp hp]
  refine ⟨hx, ?_⟩
  rw [hx]
  by_cases hb : x.testBit 0 <;> simp [hb, List.countP_cons]

/-- C3: evaluation of `amd_k8_revfg_temp` at concrete CPU signatures.
The C source guards the offset with
`extendedModel < 6 && extendedModel > 7` (unsatisfiable; its comment
says "Not Rev G", so `||` was clearly intended) and with
`extendedModel == 6 && extendedModel < 9`.  Consequently a non-mobile
part with extended model 4 or 5 or 9 — outside the spec's range [6,9) —
is assigned the +21 offset, while a part with extended model 6 — inside
the range — is not.  `rtcr = 0x00010000` keeps the sensor-select write
out of the picture. -/
theorem amd_k8_revfg_temp_code_eval :
    (amd_k8_revfg_temp 4 0 0 0x00010000 0).1 = 21
    ∧ (amd_k8_revfg_temp 5 0 0 0x00010000 0).1 = 21
    ∧ (amd_k8_revfg_temp 9 0 0 0x00010000 0).1 = 21
    ∧ (amd_k8_revfg_temp 6 0 0 0x00010000 0).1 = 0
    ∧ (amd_k8_revfg_temp 7 0 0 0x00010000 0).1 = 21
    ∧ (amd_k8_revfg_temp 8 0 0 0x00010000 0).1 = 21 :=
  ⟨rfl, rfl, rfl, rfl, rfl, rfl⟩

/-! ## Concrete fingerprints

A baseline fingerprint matching no rule, the seven literal single-rule
fingerprints of the table, and synthetic multi-rule fingerprints. -/

/-- A fingerprint matching none of the seven rules (all-ones PCI reads,
a non-AMD CPU, no ADL-N classification). -/
def fpNone : Fingerprint :=
  { root_vid := 0xFFFF, root_did := 0xFFFF, sub_vid := 0xFFFF,
    sub_did := 0xFFFF, vendor_first := 'G', family := 6,
    extendedFamily := 0, model := 0, extendedModel := 0, stepping := 0,
    extendedBrandID := 0, imc_type := 0, isa_sub_did := 0xFFFF,
    dct0_high := 0 }

/-- R1's literal fingerprint: ALi Aladdin V root bridge. -/
def fpR1 : Fingerprint :=
  { fpNone with root_vid := PCI_VID_ALI, root_did := 0x1541 }

/-- R2's literal fingerprint: Intel i815 root bridge, ASUS TUSL2-C subsystem. -/
def fpR2 : Fingerprint :=
  { fpNone with root_vid := PCI_VID_INTEL, root_did := 0x1130,
                sub_vid := PCI_VID_ASUS, sub_did := 0x8027 }

/-- R3's literal fingerprint: Broadwell-E root bridge, SuperMicro subsystem. -/
def fpR3 : Fingerprint :=
  { fpNone with root_vid := PCI_VID_INTEL, root_did := 0x6F00,
                sub_vid := PCI_VID_SUPERMICRO }

/-- R4's literal fingerprint: early AMD K8, SH-B0 ClawHammer. -/
def fpR4 : Fingerprint :=
  { fpNone with vendor_first := 'A', family := 0xF, extendedFamily := 0,
                model := 4, extendedModel := 0, stepping := 0 }

/-- R5's literal fingerprint: late AMD K8 (rev F/G). -/
def fpR5 : Fingerprint :=
  { fpNone with vendor_first := 'A', family := 0xF, extendedFamily := 0,
                model := 0, extendedModel := 4, stepping := 0 }

/-- R6's literal fingerprint: AMD K10, Socket F package, DR-BA stepping. -/
def fpR6 : Fingerprint :=
  { fpNone with vendor_first := 'A', family := 0xF, extendedFamily := 1,
                model := 0, extendedModel := 0, stepping := 0,
                extendedBrandID := 0, dct0_high := 0 }

/-- R7's literal fingerprint: ADL-N platform, ISA-bridge subsystem 0x54A3. -/
def fpR7 : Fingerprint :=
  { fpNone with imc_type := IMC_ADL_N, isa_sub_did := 0x54A3 }

/-- A synthetic fingerprint matching R1 and R4: an ALi Aladdin V root
bridge combined with an early-K8 CPU signature. -/
def fpR1R4 : Fingerprint :=
  { fpR4 with root_vid := PCI_VID_ALI, root_did := 0x1541 }

/-- A synthetic fingerprint matching R2, R5 and R7 simultaneously. -/
def fpR2R5R7 : Fingerprint :=
  { fpR5 with root_vid := PCI_VID_INTEL, root_did := 0x1130,
              sub_vid := PCI_VID_ASUS, sub_did := 0x8027,
              imc_type := IMC_ADL_N, isa_sub_did := 0x54A3 }

/-! ## Claim theorems about the rule evaluation engine -/

/-- C1: whenever two or more rules match, the record's domain bitmask is
the bitwise union of all matching rules' domain bitmasks, while the
record's identifier and corrective-action reference are exactly those of
the last matching rule in table order. -/
theorem quirks_init_multi_match (fp : Fingerprint)
    (h : 2 ≤ (matchingRules fp).length) :
    (quirks_init fp).1.type
      = (matchingRules fp).foldl (fun t r => t ||| r.domains) 0
    ∧ ∃ r, (matchingRules fp).getLast? = some r
        ∧ (quirks_init fp).1.id = r.id
        ∧ (quirks_init fp).1.process = r.process := by
  obtain ⟨ht, hi, hp, _, _⟩ :=
    foldl_applyRule_fields fp ruleTable (initQuirk fp)
  have hne : matchingRules fp ≠ [] := by
    intro hnil
    rw [hnil] at h
    simp at h
  rcases hg : (matchingRules fp).getLast? with _ | r
  · exact absurd (List.getLast?_eq_none_iff.mp hg) hne
  · refine ⟨?_, r, rfl, ?_, ?_⟩
    · rw [quirks_init_eq_foldl, ht]
      rfl
    · rw [quirks_init_eq_foldl, hi]
      rw [show (ruleTable.filter fun r => r.trig fp) = matchingRules fp from rfl,
        hg]
      rfl
    · rw [quirks_init_eq_foldl, hp]
      rw [show (ruleTable.filter fun r => r.trig fp) = matchingRules fp from rfl,
        hg]
      rfl

theorem quirks_init_multi_match_witness :
    2 ≤ (matchingRules fpR1R4).length
    ∧ ((quirks_init fpR1R4).1.type
        = (matchingRules fpR1R4).foldl (fun t r => t ||| r.domains) 0
      ∧ ∃ r, (matchingRules fpR1R4).getLast? = some r
          ∧ (quirks_init fpR1R4).1.id = r.id
          ∧ (quirks_init fpR1R4).1.process = r.process) :=
  ⟨by decide, quirks_init_multi_match fpR1R4 (by decide)⟩

/-- C2: each of the seven literal fingerprints of the rule table matches
exactly one rule, and `quirks_init` on it yields exactly that rule's
identifier and domain bit, with a non-null corrective-action reference
for every rule except R3 (SuperMicro X10SDV), whose reference is null. -/
theorem quirks_init_single_rule_results :
    ((matchingRules fpR1).length = 1
      ∧ (quirks_init fpR1).1.id = QuirkId.QUIRK_ALI_ALADDIN_V
      ∧ (quirks_init fpR1).1.type = QUIRK_TYPE_MEM_SIZE
      ∧ (quirks_init fpR1).1.process = some QuirkProcess.get_m1541_l2_cache_size)
    ∧ ((matchingRules fpR2).length = 1
      ∧ (quirks_init fpR2).1.id = QuirkId.QUIRK_TUSL2
      ∧ (quirks_init fpR2).1.type = QUIRK_TYPE_SMBUS
      ∧ (quirks_init fpR2).1.process = some QuirkProcess.asus_tusl2_configure_mux)
    ∧ ((matchingRules fpR3).length = 1
      ∧ (quirks_init fpR3).1.id = QuirkId.QUIRK_X10SDV_NOSMP
      ∧ (quirks_init fpR3).1.type = QUIRK_TYPE_SMP
      ∧ (quirks_init fpR3).1.process = none)
    ∧ ((matchingRules fpR4).length = 1
      ∧ (quirks_init fpR4).1.id = QuirkId.QUIRK_K8_BSTEP_NOTEMP
      ∧ (quirks_init fpR4).1.type = QUIRK_TYPE_TEMP
      ∧ (quirks_init fpR4).1.process = some QuirkProcess.disable_temp_reporting)
    ∧ ((matchingRules fpR5).length = 1
      ∧ (quirks_init fpR5).1.id = QuirkId.QUIRK_K8_REVFG_TEMP
      ∧ (quirks_init fpR5).1.type = QUIRK_TYPE_TEMP
      ∧ (quirks_init fpR5).1.process = some QuirkProcess.amd_k8_revfg_temp)
    ∧ ((matchingRules fpR6).length = 1
      ∧ (quirks_init fpR6).1.id = QuirkId.QUIRK_AMD_ERRATA_319
      ∧ (quirks_init fpR6).1.type = QUIRK_TYPE_TEMP
      ∧ (quirks_init fpR6).1.process = some QuirkProcess.disable_temp_reporting)
    ∧ ((matchingRules fpR7).length = 1
      ∧ (quirks_init fpR7).1.id = QuirkId.QUIRK_ADL_SMB_UNLOCK
      ∧ (quirks_init fpR7).1.type = QUIRK_TYPE_SMBUS
      ∧ (quirks_init fpR7).1.process = some QuirkProcess.adl_unlock_smbus) := by
  decide

/-- C5: for a fingerprint matching none of the seven rules, the record's
identifier is `QUIRK_NONE`, its domain bitmask is `QUIRK_TYPE_NONE` (the
empty mask), and its corrective-action reference is null. -/
theorem quirks_init_no_match (fp : Fingerprint)
    (h : matchingRules fp = []) :
    (quirks_init fp).1.id = QuirkId.QUIRK_NONE
    ∧ (quirks_init fp).1.type = QUIRK_TYPE_NONE
    ∧ (quirks_init fp).1.process = none := by
  obtain ⟨ht, hi, hp, _, _⟩ :=
    foldl_applyRule_fields fp ruleTable (initQuirk fp)
  have hfe : (ruleTable.filter fun r => r.trig fp) = [] := h
  rw [quirks_init_eq_foldl]
  rw [hfe] at ht hi hp
  exact ⟨hi, ht, hp⟩

theorem quirks_init_no_match_witness :
    matchingRules fpNone = []
    ∧ ((quirks_init fpNone).1.id = QuirkId.QUIRK_NONE
      ∧ (quirks_init fpNone).1.type = QUIRK_TYPE_NONE
      ∧ (quirks_init fpNone).1.process = none) :=
  ⟨rfl, quirks_init_no_match fpNone rfl⟩

/-- C10: after `quirks_init`, the corrective-action reference is null if
and only if the identifier is `QUIRK_NONE` or `QUIRK_X10SDV_NOSMP`:
every rule assigns identifier and action together, so a non-null action
is always paired with the identifier of the rule that supplied it. -/
theorem quirks_init_action_null_iff_id (fp : Fingerprint) :
    (quirks_init fp).1.process = none ↔
      ((quirks_init fp).1.id = QuirkId.QUIRK_NONE
       ∨ (quirks_init fp).1.id = QuirkId.QUIRK_X10SDV_NOSMP) := by
  obtain ⟨ht, hi, hp, _, _⟩ :=
    foldl_applyRule_fields fp ruleTable (initQuirk fp)
  rw [quirks_init_eq_foldl, hi, hp]
  rcases hg : (ruleTable.filter fun r => r.trig fp).getLast? with _ | r
  · rw [hg]
    simp [initQuirk]
  · rw [hg]
    have hr : r ∈ ruleTable :=
      List.mem_of_mem_filter (List.mem_of_getLast?_eq_some hg)
    simp only [ruleTable, List.mem_cons, List.not_mem_nil, or_false] at hr
    rcases hr with hr | hr | hr | hr | hr | hr | hr <;> subst hr <;> simp

/-- C4 (amended): `quirks_init` invokes no corrective fix inline during
rule evaluation; for every rule the action is only stored in the record.
Its trace never contains a fix invocation. -/
theorem quirks_init_invokes_no_fix (fp : Fingerprint) :
    invokedFixes (quirks_init fp).2 = [] := by
  simp only [quirks_init, invokedFixes]
  split_ifs <;> simp

/-- C4 (counterexample to the claim as stated): concrete fingerprints
under which every rule that carries a corrective fix (R1, R2, R4, R5,
R6, R7) matches, yet `quirks_init` performs no inline fix invocation at
all — whichever two rules are "marked immediate", their fixes are not
invoked inline; the matched fixes are only stored in the record. -/
theorem quirks_init_no_inline_invocation :
    (matchingRules fpR1R4).length = 2
    ∧ (matchingRules fpR2R5R7).length = 3
    ∧ (matchingRules fpR6).length = 1
    ∧ (quirks_init fpR1R4).1.process = some QuirkProcess.disable_temp_reporting
    ∧ (quirks_init fpR2R5R7).1.process = some QuirkProcess.adl_unlock_smbus
    ∧ (quirks_init fpR6).1.process = some QuirkProcess.disable_temp_reporting
    ∧ invokedFixes (quirks_init fpR1R4).2 = []
    ∧ invokedFixes (quirks_init fpR2R5R7).2 = []
    ∧ invokedFixes (quirks_init fpR6).2 = [] := by
  decide

end HWQuirks
